import Mathlib

/-!
# CAT Mock Test Portal — verification of the session lifecycle and scoring engine

A shallow embedding of the session/scoring core of the CAT mock-test portal
backend (`app.py`, with the serverless variant `vercel_app_improved.py`).

Conventions of the embedding:
* Python `dict`s (the live session store `active_sessions`, the per-session
  `answers` map, the per-test-name archive map) become association lists
  `List (String × α)` with first-match lookup; `dict` assignment replaces the
  value in place when the key exists and appends otherwise, matching Python's
  insertion-ordered, key-unique semantics.
* Wall-clock timestamps (`datetime.now()`) become an `Int` number of seconds
  passed in explicitly by the caller; `elapsed.total_seconds()` becomes plain
  integer subtraction.
* HTTP errors (`HTTPException`) become `Except String` results; handlers that
  mutate the store are modelled in state-passing style, returning the new
  store together with the result.
* Question types keep their literal source strings
  (`"Multiple Choice Question"`, `"Type in the Answer"`).
-/

/-- The stored record for one submitted answer
(`session["answers"][question_id]` in `submit_answer`). -/
structure AnswerRec where
  answer : String
  correct_answer : String
  time_spent : Int
  timestamp : Int
  sect : String
deriving Repr, DecidableEq

/-- One live test attempt (`active_sessions[session_id]` as built by
`start_test`).  The `sect` field is the session's `"section"` key. -/
structure Session where
  username : String
  test_name : String
  sect : String
  question_index : Nat
  answers : List (String × AnswerRec)
  bookmarks : List String
  flags : List (String × String)
  time_started : Int
  time_remaining : Int
  section_times : List (String × Int)
  is_paused : Bool
  paused_at : Option Int
deriving Repr, DecidableEq

/-! ## Python dicts as insertion-ordered association lists

All the mutable maps of the source (`active_sessions`, a session's `answers`,
the per-test `latest_attempts`) are Python dicts: insertion ordered with
unique keys.  They are embedded as association lists with first-match lookup;
assignment replaces the value in place when the key is present and appends
otherwise, and `del` removes the key — exactly the observable dict behaviour. -/

/-- Dict lookup `d[k]` / `k in d`: first match wins. -/
def lookupD {α : Type} : List (String × α) → String → Option α
  | [], _ => none
  | p :: rest, k => if p.1 = k then some p.2 else lookupD rest k

/-- Key membership `k in d`. -/
def hasKeyD {α : Type} : List (String × α) → String → Bool
  | [], _ => false
  | p :: rest, k => if p.1 = k then true else hasKeyD rest k

/-- Replace the value stored under an existing key, keeping its position. -/
def replaceD {α : Type} : List (String × α) → String → α → List (String × α)
  | [], _, _ => []
  | p :: rest, k, v =>
      if p.1 = k then (k, v) :: replaceD rest k v else p :: replaceD rest k v

/-- Dict assignment `d[k] = v`: replace in place when present, else append. -/
def insertD {α : Type} (l : List (String × α)) (k : String) (v : α) :
    List (String × α) :=
  if hasKeyD l k then replaceD l k v else l ++ [(k, v)]

/-- Dict deletion `del d[k]`. -/
def eraseD {α : Type} : List (String × α) → String → List (String × α)
  | [], _ => []
  | p :: rest, k => if p.1 = k then eraseD rest k else p :: eraseD rest k

/-- The live session store `active_sessions` (a Python dict, insertion ordered). -/
abbrev Store := List (String × Session)

/-! ## Test catalogue (`data/full_data.json` as traversed by the handlers)

A test is `{name, data}` where `data` maps a section name (`VARC`/`DILR`/`QA`)
to a list of question groups, each with a `qa_list` of questions.  A question's
`question_num` may be a scalar or a list in the JSON; every handler normalises
the list case to its first element before building the question id
`f"{section_name}_{question_num}"`, so the embedding carries the normalised
number. -/

/-- One entry of a `qa_list`. -/
structure QA where
  question_num : Nat
  answer : String
  question_type : String
deriving Repr, DecidableEq

/-- One question group (shared context plus its `qa_list`). -/
structure QuestionGroup where
  qa_list : List QA
deriving Repr, DecidableEq

/-- One test of the catalogue: name plus section-keyed question groups. -/
structure TestData where
  name : String
  data : List (String × List QuestionGroup)
deriving Repr, DecidableEq

/-- The question id the handlers build: `f"{section_name}_{question_num}"`. -/
def mkQid (sectionName : String) (num : Nat) : String :=
  sectionName ++ "_" ++ toString num

/-! ## Session lifecycle handlers -/

/-- The fresh session record `start_test` installs (app.py lines 396–412). -/
def initSession (username test_name : String) (now : Int) : Session :=
  { username := username
    test_name := test_name
    sect := "VARC"
    question_index := 0
    answers := []
    bookmarks := []
    flags := []
    time_started := now
    time_remaining := 7200
    section_times := [("VARC", 2400), ("DILR", 2400), ("QA", 2400)]
    is_paused := false
    paused_at := none }

/-- `start_test` (app.py lines 369–425, vercel_app_improved.py lines 224–270):
validates the request, deletes every session of this user that is not paused,
and installs a fresh `Active` session under the new id.  The generated
`uuid4` session id is passed in as `newSid`. -/
def start_test (store : Store) (username test_name newSid : String)
    (now : Int) : Store × Except String String :=
  if username = "" ∨ test_name = "" then
    (store, .error "Username and test name are required")
  else
    let kept := store.filter (fun p => !(p.2.username == username && !p.2.is_paused))
    (insertD kept newSid (initSession username test_name now), .ok newSid)

/-- `get_session` (app.py lines 438–454, vercel_app_improved.py lines 283–299):
always computes `remaining = time_remaining - (now - time_started)` — there is
no branch on `is_paused` — and returns the session with `time_remaining`
replaced by `max(0, remaining)`. -/
def get_session (store : Store) (sid : String) (now : Int) :
    Except String Session :=
  match lookupD store sid with
  | none => .error "Session not found"
  | some s =>
      .ok { s with
              time_remaining := max 0 (s.time_remaining - (now - s.time_started)) }

/-- `pause_test` (app.py lines 546–565): decrements `time_remaining` by the
elapsed time, marks the session paused, and only then awaits the Excel archive
write (`save_session_data`), whose failure surfaces as an HTTP 500
(`"Failed to save progress"`, detail suffix abstracted) after the in-memory
mutation has already happened.  `archiveOk` stands for whether that external
write succeeds. -/
def pause_test (store : Store) (sid : Option String) (now : Int)
    (archiveOk : Bool) : Store × Except String String :=
  match sid with
  | none => (store, .error "Session not found")
  | some sid =>
      match lookupD store sid with
      | none => (store, .error "Session not found")
      | some s =>
          let s' := { s with
                        time_remaining := s.time_remaining - (now - s.time_started)
                        paused_at := some now
                        is_paused := true }
          let store' := insertD store sid s'
          if archiveOk then (store', .ok "Test paused successfully")
          else (store', .error "Failed to save progress")

/-- `resume_test` (app.py lines 667–687): resets `time_started` to now, drops
the pause marker and returns the session to the running state. -/
def resume_test (store : Store) (sid : Option String) (now : Int) :
    Store × Except String String :=
  match sid with
  | none => (store, .error "Session not found")
  | some sid =>
      match lookupD store sid with
      | none => (store, .error "Session not found")
      | some s =>
          (insertD store sid
            { s with time_started := now, paused_at := none, is_paused := false },
           .ok "Test resumed successfully")

/-- `cleanup_session` (app.py lines 656–665): the guard is
`if session_id and session_id in active_sessions:` — a missing (`None`) or
empty (falsy) id fails the truthiness test, so the handler answers with the
not-found message and leaves the store alone even when `""` is a store key;
otherwise the session is deleted.  It never raises. -/
def cleanup_session (store : Store) (sid : Option String) : Store × String :=
  match sid with
  | none => (store, "Session not found or already cleaned")
  | some sid =>
      if sid ≠ "" ∧ hasKeyD store sid = true then
        (eraseD store sid,
         "Session " ++ sid ++ " cleaned up successfully")
      else
        (store, "Session not found or already cleaned")

/-! ## Answer submission (`submit_answer`, app.py lines 456–496,
vercel_app_improved.py lines 301–338)

The handler scans the whole catalogue for the question id: for each test whose
name matches the session's test, for each section and question group it takes
the first matching entry of the `qa_list` (the `break` leaves only the
innermost loop, so a match in a later group overwrites an earlier one); when
nothing matches, `correct_answer` and `section` stay `""`.  The answer is then
stored unconditionally and the handler reports success. -/

/-- Scan one section's question groups, threading the accumulator. -/
def scanGroups (sectionName qid : String) (grps : List QuestionGroup)
    (acc : String × String) : String × String :=
  grps.foldl
    (fun a grp =>
      match grp.qa_list.find? (fun qa => mkQid sectionName qa.question_num == qid) with
      | some qa => (qa.answer, sectionName)
      | none => a)
    acc

/-- Scan all sections of one test. -/
def scanSections (qid : String) (secs : List (String × List QuestionGroup))
    (acc : String × String) : String × String :=
  secs.foldl (fun a sec => scanGroups sec.1 qid sec.2 a) acc

/-- The full catalogue scan of `submit_answer`: `(correct_answer, section)`,
both `""` when the id occurs nowhere in the session's test. -/
def submitScan (tests : List TestData) (test_name qid : String) :
    String × String :=
  tests.foldl
    (fun a t => if t.name == test_name then scanSections qid t.data a else a)
    ("", "")

/-- Does the question id occur anywhere in the named test? -/
def qidInTests (tests : List TestData) (test_name qid : String) : Bool :=
  tests.any (fun t =>
    t.name == test_name &&
    t.data.any (fun sec =>
      sec.2.any (fun grp =>
        grp.qa_list.any (fun qa => mkQid sec.1 qa.question_num == qid))))

/-- The request body of `/api/submit-answer`. -/
structure AnswerSubmission where
  session_id : String
  question_id : String
  answer : String
  time_spent : Int
deriving Repr, DecidableEq

/-- `submit_answer`: looks up the session, scans the catalogue for the correct
answer, and stores the `AnswerRec` under the submitted question id — whether or
not the id was found — then reports success. -/
def submit_answer (store : Store) (tests : List TestData)
    (sub : AnswerSubmission) (now : Int) : Store × Except String String :=
  match lookupD store sub.session_id with
  | none => (store, .error "Session not found")
  | some s =>
      let scan := submitScan tests s.test_name sub.question_id
      let r : AnswerRec :=
        { answer := sub.answer
          correct_answer := scan.1
          time_spent := sub.time_spent
          timestamp := now
          sect := scan.2 }
      (insertD store sub.session_id
        { s with answers := insertD s.answers sub.question_id r },
       .ok "Answer submitted successfully")

/-! ## Scoring (`save_session_data`, app.py lines 228–241) -/

/-- The literal question-type string the scoring code compares against. -/
def mcqType : String := "Multiple Choice Question"

/-- Per-question marks exactly as computed in `save_session_data`:

```python
marks = 0
if user_answer:                       # question was attempted
    if user_answer == correct_answer:
        marks = 3
    else:
        if question_type == "Multiple Choice Question":
            marks = -1
        else:                         # TITA
            marks = 0
else:
    marks = 0
```
-/
def calcMarks (user_answer correct_answer question_type : String) : Int :=
  if user_answer ≠ "" then
    if user_answer = correct_answer then 3
    else if question_type = mcqType then -1
    else 0
  else 0

/-- The condition under which `save_session_data` counts an answer correct:
the question was attempted (`if user_answer:`) and the submitted value equals
the stored correct answer exactly (`user_answer == correct_answer`). -/
def countedCorrect (user_answer correct_answer : String) : Bool :=
  user_answer ≠ "" && user_answer == correct_answer

/-! ## Attempt scoring (`save_session_data`, app.py lines 192–257)

`save_session_data` flattens the first catalogue test matching the session's
test name into `all_questions` (one entry per `qa_list` item, in section /
group / list order), then emits one spreadsheet row per question — answered or
not — with the marks of `calcMarks`.  The embedding keeps the scoring-relevant
columns of the row; the presentation-only columns (`Bookmark_Status`,
`Flag_Color`, `Attempt_Timestamp`, the final-row running `Total_Score`) are
derived from the same data and carry no marks information. -/

/-- One entry of `all_questions`. -/
structure QuestionInfo where
  question_id : String
  qsection : String
  question_type : String
  correct_answer : String
  question_num : Nat
deriving Repr, DecidableEq

/-- The `all_questions` flattening: every question of the first test whose
name matches, in catalogue order. -/
def allQuestions (tests : List TestData) (test_name : String) :
    List QuestionInfo :=
  match tests.find? (fun t => t.name == test_name) with
  | none => []
  | some t =>
      (t.data.map (fun sec =>
        (sec.2.map (fun grp =>
          grp.qa_list.map (fun qa =>
            { question_id := mkQid sec.1 qa.question_num
              qsection := sec.1
              question_type := qa.question_type
              correct_answer := qa.answer
              question_num := qa.question_num : QuestionInfo }))).flatten)).flatten

/-- One scored spreadsheet row. -/
structure ScoredRow where
  question_id : String
  qsection : String
  question_type : String
  user_answer : String
  correct_answer : String
  marks : Int
  time_spent : Int
deriving Repr, DecidableEq

/-- Build the row for one question:
`answer_data = session["answers"].get(question_id, {})`,
`user_answer = answer_data.get("answer", "")`, marks by the CAT scheme. -/
def scoreRow (s : Session) (q : QuestionInfo) : ScoredRow :=
  let ua := match lookupD s.answers q.question_id with
            | some a => a.answer
            | none => ""
  let ts := match lookupD s.answers q.question_id with
            | some a => a.time_spent
            | none => 0
  { question_id := q.question_id
    qsection := q.qsection
    question_type := q.question_type
    user_answer := ua
    correct_answer := q.correct_answer
    marks := calcMarks ua q.correct_answer q.question_type
    time_spent := ts }

/-- The complete row list `save_session_data` writes: one row per question of
the test. -/
def scoreAttempt (s : Session) (tests : List TestData) : List ScoredRow :=
  (allQuestions tests s.test_name).map (scoreRow s)

/-! ## User statistics (`get_user_stats`, app.py lines 689–787)

The Excel workbook holds one sheet per archive write, named
`Attempt_YYYYmmdd_HHMMSS`; all names share the `Attempt_` prefix and the
timestamp part is fixed-width zero-padded, so Python's string comparison of
sheet names is exactly the numeric comparison of creation timestamps.  The
embedding therefore carries the timestamp as a `Nat` and compares with `>` as
the source does (first sheet wins a tie). -/

/-- One row of an archived sheet (the columns the statistics read). -/
structure SheetRow where
  user_answer : String
  correct_answer : String
  marks : Int
  time_spent : Int
deriving Repr, DecidableEq

/-- One archived sheet: creation timestamp (from the sheet name), the test
name of its first row, and its rows. -/
structure Sheet where
  sheet_ts : Nat
  test_name : String
  rows : List SheetRow
deriving Repr, DecidableEq

/-- The `latest_attempts` selection: iterate the sheets in workbook order,
skipping empty ones, keeping per test name the sheet with the greatest
timestamp (`attempt_timestamp > latest_attempts[test_name]['timestamp']`;
the earlier sheet survives a tie, and the dict slot keeps its position). -/
def latestAttempts (sheets : List Sheet) : List Sheet :=
  sheets.foldl
    (fun acc sh =>
      if sh.rows.isEmpty then acc
      else
        match acc.find? (fun x => x.test_name == sh.test_name) with
        | none => acc ++ [sh]
        | some prev =>
            if prev.sheet_ts < sh.sheet_ts then
              acc.map (fun x => if x.test_name == sh.test_name then sh else x)
            else acc)
    []

/-- `sheet_data['Time_Spent'].sum()`. -/
def sheetTime (sh : Sheet) : Int := (sh.rows.map (·.time_spent)).sum

/-- `sheet_data['Marks_Obtained'].sum()`. -/
def sheetScore (sh : Sheet) : Int := (sh.rows.map (·.marks)).sum

/-- `(data['User_Answer'] == data['Correct_Answer']).sum()`. -/
def sheetCorrect (sh : Sheet) : Nat :=
  (sh.rows.filter (fun r => r.user_answer == r.correct_answer)).length

/-- The aggregate figures `get_user_stats` returns (the fields derived from
the latest-per-test selection). -/
structure UserStats where
  total_time : Int
  tests_completed : Nat
  average_score : ℚ
  individual_test_scores : List Int
  total_questions_attempted : Nat
  total_correct_answers : Nat
deriving Repr, DecidableEq

/-- The aggregation core of `get_user_stats`: keep the latest sheet per test
name and fold the statistics over those sheets only. -/
def userStats (sheets : List Sheet) : UserStats :=
  let latest := latestAttempts sheets
  let scores := latest.map sheetScore
  { total_time := (latest.map sheetTime).sum
    tests_completed := latest.length
    average_score :=
      if scores.isEmpty then 0
      else ((scores.sum : ℚ) / (scores.length : ℚ))
    individual_test_scores := scores
    total_questions_attempted := (latest.map (·.rows.length)).sum
    total_correct_answers := (latest.map sheetCorrect).sum }

/-- C2: for every question and submitted value, marks lie in `{-1, 0, 3}`;
marks are `3` iff the answer is counted correct; and marks are `-1` only for
an incorrectly answered MCQ. -/
theorem c2_marking_law (ua ca qt : String) :
    (calcMarks ua ca qt = -1 ∨ calcMarks ua ca qt = 0 ∨ calcMarks ua ca qt = 3) ∧
    (calcMarks ua ca qt = 3 ↔ countedCorrect ua ca = true) ∧
    (calcMarks ua ca qt = -1 →
      qt = mcqType ∧ countedCorrect ua ca = false) := by
  unfold calcMarks countedCorrect
  by_cases hne : ua = ""
  · simp [hne]
  · by_cases heq : ua = ca
    · subst heq
      simp [hne]
    · by_cases hq : qt = mcqType <;> simp [hne, heq, hq]

/-- Witness for C2 at a concrete wrong MCQ answer: the `-1` case forces the
MCQ question type and incorrectness. -/
theorem c2_marking_law_witness :
    "Multiple Choice Question" = mcqType ∧ countedCorrect "b" "a" = false :=
  (c2_marking_law "b" "a" "Multiple Choice Question").2.2 rfl

/-- C3 counterexample: the claim says matching is case-insensitive, so that
submitting `"A"` for correct answer `"a"` scores `+3`; the code compares with
`==` and scores it `-1` (wrong MCQ). -/
theorem c3_counterexample :
    calcMarks "A" "a" mcqType = -1 ∧ ((-1 : Int) ≠ 3) := by
  constructor
  · rfl
  · decide

/-- C3 amended: answer matching for scoring is exact string equality (no case
folding, no trimming): for every nonempty submitted value, marks are `+3` and
the answer is counted correct exactly when the submitted value equals the
stored correct answer character for character. -/
theorem c3_exact_match (ua ca qt : String) (h : ua ≠ "") :
    (calcMarks ua ca qt = 3 ↔ ua = ca) ∧
    (countedCorrect ua ca = true ↔ ua = ca) := by
  constructor
  · unfold calcMarks
    by_cases heq : ua = ca
    · subst heq
      simp [h]
    · by_cases hq : qt = mcqType <;> simp [h, heq, hq]
  · unfold countedCorrect
    simp [h]

/-- Witness for C3's amended claim at a concrete input. -/
theorem c3_exact_match_witness :
    ("a" : String) ≠ "" ∧ (calcMarks "a" "a" mcqType = 3 ↔ ("a" : String) = "a") :=
  ⟨by decide, (c3_exact_match "a" "a" mcqType (by decide)).1⟩

/-! ## Dictionary lemmas -/

theorem hasKeyD_false_iff {α : Type} {l : List (String × α)} {k : String} :
    hasKeyD l k = false ↔ lookupD l k = none := by
  induction l with
  | nil => simp [hasKeyD, lookupD]
  | cons p rest ih =>
    by_cases hp : p.1 = k <;> simp [hasKeyD, lookupD, hp, ih]

theorem lookupD_replaceD_self {α : Type} {l : List (String × α)} {k : String}
    (v : α) (h : hasKeyD l k = true) : lookupD (replaceD l k v) k = some v := by
  induction l with
  | nil => simp [hasKeyD] at h
  | cons p rest ih =>
    by_cases hp : p.1 = k
    · simp [replaceD, hp, lookupD]
    · simp only [replaceD, if_neg hp, lookupD]
      exact ih (by simpa [hasKeyD, hp] using h)

theorem lookupD_append {α : Type} {l₁ : List (String × α)}
    (l₂ : List (String × α)) {k : String} (h : lookupD l₁ k = none) :
    lookupD (l₁ ++ l₂) k = lookupD l₂ k := by
  induction l₁ with
  | nil => simp [lookupD]
  | cons p rest ih =>
    by_cases hp : p.1 = k
    · simp [lookupD, hp] at h
    · simp only [lookupD, if_neg hp] at h
      simpa only [List.cons_append, lookupD, if_neg hp] using ih h

theorem lookupD_insertD_self {α : Type} (l : List (String × α)) (k : String)
    (v : α) : lookupD (insertD l k v) k = some v := by
  unfold insertD
  by_cases h : hasKeyD l k
  · rw [if_pos h]
    exact lookupD_replaceD_self v h
  · rw [if_neg h]
    rw [lookupD_append _ (hasKeyD_false_iff.mp (Bool.of_not_eq_true h))]
    simp [lookupD]

theorem lookupD_eraseD_self {α : Type} (l : List (String × α)) (k : String) :
    lookupD (eraseD l k) k = none := by
  induction l with
  | nil => simp [eraseD, lookupD]
  | cons p rest ih =>
    by_cases hp : p.1 = k
    · simpa [eraseD, hp] using ih
    · simpa [eraseD, hp, lookupD] using ih

theorem lookupD_eraseD_other {α : Type} (l : List (String × α)) {k k' : String}
    (h : k' ≠ k) : lookupD (eraseD l k) k' = lookupD l k' := by
  induction l with
  | nil => simp [eraseD]
  | cons p rest ih =>
    by_cases hp : p.1 = k
    · have hp' : p.1 ≠ k' := by rw [hp]; exact fun he => h he.symm
      simp only [eraseD, if_pos hp, lookupD, if_neg hp']
      exact ih
    · simp only [eraseD, if_neg hp, lookupD]
      by_cases hp' : p.1 = k' <;> simp [lookupD, hp', ih]

/-! ## The claims -/

/-- C4: scoring an attempt produces exactly one row per question of the test
(answered or not), and every question with no stored answer yields a row with
zero marks. -/
theorem c4_total_coverage (s : Session) (tests : List TestData) :
    (scoreAttempt s tests).length = (allQuestions tests s.test_name).length ∧
    ∀ q ∈ allQuestions tests s.test_name,
      lookupD s.answers q.question_id = none →
        scoreRow s q ∈ scoreAttempt s tests ∧ (scoreRow s q).marks = 0 := by
  constructor
  · unfold scoreAttempt
    exact List.length_map _ _
  · intro q hq hnone
    constructor
    · unfold scoreAttempt
      exact List.mem_map_of_mem _ hq
    · simp only [scoreRow, hnone]
      simp [calcMarks]

/-- A one-question catalogue used for concrete evaluations. -/
def testsEx : List TestData :=
  [{ name := "Mock-1",
     data := [("VARC", [{ qa_list := [{ question_num := 1, answer := "a",
                                        question_type := mcqType }] }])] }]

/-- The flattened `all_questions` entry of `testsEx`. -/
def qEx : QuestionInfo :=
  { question_id := "VARC_1", qsection := "VARC", question_type := mcqType,
    correct_answer := "a", question_num := 1 }

/-- A fresh session on `testsEx` with no answers. -/
def sessionEx : Session := initSession "alice" "Mock-1" 0

/-- Witness for C4 on the concrete one-question test with nothing answered. -/
theorem c4_total_coverage_witness :
    qEx ∈ allQuestions testsEx sessionEx.test_name ∧
    scoreRow sessionEx qEx ∈ scoreAttempt sessionEx testsEx ∧
    (scoreRow sessionEx qEx).marks = 0 := by
  have h := (c4_total_coverage sessionEx testsEx).2 qEx (by decide) (by rfl)
  exact ⟨by decide, h.1, h.2⟩

/-- C5 counterexample: the claim says a Paused session's `getState` returns
the stored `time_remaining` without subtracting elapsed time; the code has no
pause branch, so a paused session with 100 s stored, queried 50 s after its
(stale) `time_started`, reports 50 s, not 100 s. -/
def pausedSessionEx : Session :=
  { initSession "alice" "Mock-1" 0 with
      is_paused := true, paused_at := some 0, time_remaining := 100 }

theorem c5_counterexample :
    pausedSessionEx.is_paused = true ∧
    pausedSessionEx.time_remaining = 100 ∧
    get_session [("sid1", pausedSessionEx)] "sid1" 50 =
      .ok { pausedSessionEx with time_remaining := 50 } ∧
    (50 : Int) ≠ 100 := by
  refine ⟨rfl, rfl, rfl, by decide⟩

/-- C5 amended: `getState` on an existing session never reports negative
remaining time (the value is clamped at 0), but for every session — Paused or
Active alike — it computes remaining as `time_remaining − (now − started_at)`;
it does not return the stored value as-is for a Paused session. -/
theorem c5_remaining_clamped (store : Store) (sid : String) (now : Int)
    (s : Session) (h : lookupD store sid = some s) :
    get_session store sid now =
      .ok { s with
              time_remaining := max 0 (s.time_remaining - (now - s.time_started)) } ∧
    0 ≤ max 0 (s.time_remaining - (now - s.time_started)) := by
  constructor
  · unfold get_session
    rw [h]
  · exact le_max_left 0 _

/-- Witness for the amended C5 at a concrete store. -/
theorem c5_remaining_clamped_witness :
    get_session [("sid1", pausedSessionEx)] "sid1" 3000 =
      .ok { pausedSessionEx with time_remaining := 0 } ∧
    (0 : Int) ≤ 0 := by
  have h := c5_remaining_clamped [("sid1", pausedSessionEx)] "sid1" 3000
    pausedSessionEx rfl
  exact ⟨h.1, le_refl 0⟩

/-- C6: when the archive write triggered by pause fails, the in-memory session
has already transitioned to Paused with its time budget decremented — the user
is not left with a running clock — and the failure is surfaced to the caller
as an error result. -/
theorem c6_pause_archive_failure (store : Store) (sid : String) (s : Session)
    (now : Int) (h : lookupD store sid = some s) :
    lookupD (pause_test store (some sid) now false).1 sid =
      some { s with
               time_remaining := s.time_remaining - (now - s.time_started)
               paused_at := some now
               is_paused := true } ∧
    (pause_test store (some sid) now false).2 =
      .error "Failed to save progress" := by
  simp only [pause_test, h]
  exact ⟨lookupD_insertD_self _ _ _, rfl⟩

/-- Witness for C6: pausing the concrete fresh session under a failing archive
write leaves it Paused with the elapsed 30 s deducted, and reports the error. -/
theorem c6_pause_archive_failure_witness :
    lookupD (pause_test [("sid1", sessionEx)] (some "sid1") 30 false).1 "sid1" =
      some { sessionEx with
               time_remaining := sessionEx.time_remaining - (30 - sessionEx.time_started)
               paused_at := some 30
               is_paused := true } ∧
    (pause_test [("sid1", sessionEx)] (some "sid1") 30 false).2 =
      .error "Failed to save progress" :=
  c6_pause_archive_failure [("sid1", sessionEx)] "sid1" sessionEx 30 rfl

/-- C8: after `pause` at `now1`, `resume` at `now2`, `pause` again at `now3`,
the stored `time_remaining` is the original minus the elapsed time of both
Active spans (`now1 − started_at` and `now3 − now2`), and with a monotone
clock it never exceeds the original value. -/
theorem c8_pause_resume_pause (store : Store) (sid : String) (s : Session)
    (now1 now2 now3 : Int) (h : lookupD store sid = some s) :
    ∃ s3 : Session,
      lookupD (pause_test
        (resume_test (pause_test store (some sid) now1 true).1
          (some sid) now2).1
        (some sid) now3 true).1 sid = some s3 ∧
      s3.time_remaining =
        s.time_remaining - (now1 - s.time_started) - (now3 - now2) ∧
      (s.time_started ≤ now1 → now2 ≤ now3 →
        s3.time_remaining ≤ s.time_remaining) := by
  set s1 : Session :=
    { s with
        time_remaining := s.time_remaining - (now1 - s.time_started)
        paused_at := some now1
        is_paused := true } with hs1
  have hst1 : (pause_test store (some sid) now1 true).1 = insertD store sid s1 := by
    simp only [pause_test, h, hs1]
    rfl
  set s2 : Session :=
    { s1 with time_started := now2, paused_at := none, is_paused := false } with hs2
  have hst2 : (resume_test (pause_test store (some sid) now1 true).1
      (some sid) now2).1 = insertD (insertD store sid s1) sid s2 := by
    rw [hst1]
    simp only [resume_test, lookupD_insertD_self store sid s1, hs2]
  refine ⟨{ s2 with
              time_remaining := s2.time_remaining - (now3 - s2.time_started)
              paused_at := some now3
              is_paused := true }, ?_, ?_, ?_⟩
  · rw [hst2]
    simp only [pause_test, lookupD_insertD_self (insertD store sid s1) sid s2]
    exact lookupD_insertD_self _ _ _
  · simp [hs2, hs1]
  · intro h1 h2
    simp only [hs2, hs1]
    omega

/-- Witness for C8: the fresh 7200 s session paused after 60 s, resumed, and
paused again 30 s later holds 7110 s, no more than the original budget. -/
theorem c8_pause_resume_pause_witness :
    ∃ s3 : Session,
      lookupD (pause_test
        (resume_test (pause_test [("sid1", sessionEx)] (some "sid1") 60 true).1
          (some "sid1") 100).1
        (some "sid1") 130 true).1 "sid1" = some s3 ∧
      s3.time_remaining =
        sessionEx.time_remaining - (60 - sessionEx.time_started) - (130 - 100) ∧
      (sessionEx.time_started ≤ 60 → (100 : Int) ≤ 130 →
        s3.time_remaining ≤ sessionEx.time_remaining) :=
  c8_pause_resume_pause [("sid1", sessionEx)] "sid1" sessionEx 60 100 130 rfl

/-- C10 counterexample: the claim says that after cleanup the id is absent
from the live store for *every* session id; Python's truthiness guard treats
an empty-string id as missing, so when `""` is a key of the store the handler
answers with the not-found message and the session under `""` remains. -/
theorem c10_counterexample :
    lookupD [("", sessionEx)] "" = some sessionEx ∧
    cleanup_session [("", sessionEx)] (some "") =
      ([("", sessionEx)], "Session not found or already cleaned") ∧
    lookupD (cleanup_session [("", sessionEx)] (some "")).1 "" =
      some sessionEx :=
  ⟨rfl, rfl, rfl⟩

/-- C10 amended: `cleanup_session` always answers with a message (never an
error); a missing or empty id gets the not-found message with the store
unchanged; and for every *non-empty* session id, afterwards the id is gone
from the live store while every other id is untouched, an unknown id gets the
not-found message with the store unchanged, and a second cleanup of the same
id is a no-op. -/
theorem c10_cleanup_truthiness (store : Store) (sid : String) (hne : sid ≠ "") :
    lookupD (cleanup_session store (some sid)).1 sid = none ∧
    (∀ other, other ≠ sid →
      lookupD (cleanup_session store (some sid)).1 other = lookupD store other) ∧
    (lookupD store sid = none →
      cleanup_session store (some sid) =
        (store, "Session not found or already cleaned")) ∧
    cleanup_session (cleanup_session store (some sid)).1 (some sid) =
      ((cleanup_session store (some sid)).1,
       "Session not found or already cleaned") ∧
    cleanup_session store none = (store, "Session not found or already cleaned") ∧
    cleanup_session store (some "") =
      (store, "Session not found or already cleaned") := by
  by_cases h : hasKeyD store sid
  · have hmain : cleanup_session store (some sid) =
        (eraseD store sid, "Session " ++ sid ++ " cleaned up successfully") := by
      simp only [cleanup_session, if_pos (And.intro hne h)]
    rw [hmain]
    have herase : hasKeyD (eraseD store sid) sid = false :=
      hasKeyD_false_iff.mpr (lookupD_eraseD_self store sid)
    refine ⟨lookupD_eraseD_self store sid, ?_, ?_, ?_, rfl, ?_⟩
    · intro other hother
      exact lookupD_eraseD_other store hother
    · intro hnone
      rw [hasKeyD_false_iff.mpr hnone] at h
      exact absurd h Bool.false_ne_true
    · have hguard : ¬(sid ≠ "" ∧ hasKeyD (eraseD store sid) sid = true) := by
        intro hc
        rw [herase] at hc
        exact Bool.false_ne_true hc.2
      simp only [cleanup_session, if_neg hguard]
    · have hempty : ¬(("" : String) ≠ "" ∧ hasKeyD store "" = true) :=
        fun hc => hc.1 rfl
      simp only [cleanup_session, if_neg hempty]
  · have hguard : ¬(sid ≠ "" ∧ hasKeyD store sid = true) := fun hc => h hc.2
    have hmain : cleanup_session store (some sid) =
        (store, "Session not found or already cleaned") := by
      simp only [cleanup_session, if_neg hguard]
    rw [hmain]
    have hempty : ¬(("" : String) ≠ "" ∧ hasKeyD store "" = true) :=
      fun hc => hc.1 rfl
    refine ⟨hasKeyD_false_iff.mp (Bool.of_not_eq_true h), fun _ _ => rfl,
      fun _ => rfl, hmain, rfl, ?_⟩
    simp only [cleanup_session, if_neg hempty]

/-- Witness for the amended C10 on a one-session store: the non-empty id is
deleted, another id is unaffected, the second cleanup answers with the
not-found message, and an empty id leaves the store alone. -/
theorem c10_cleanup_truthiness_witness :
    ("sid1" : String) ≠ "" ∧
    lookupD (cleanup_session [("sid1", sessionEx)] (some "sid1")).1 "sid1" =
      none ∧
    lookupD (cleanup_session [("sid1", sessionEx)] (some "sid1")).1 "other" =
      lookupD [("sid1", sessionEx)] "other" ∧
    cleanup_session (cleanup_session [("sid1", sessionEx)] (some "sid1")).1
        (some "sid1") =
      ((cleanup_session [("sid1", sessionEx)] (some "sid1")).1,
       "Session not found or already cleaned") ∧
    cleanup_session [("sid1", sessionEx)] (some "") =
      ([("sid1", sessionEx)], "Session not found or already cleaned") := by
  have h := c10_cleanup_truthiness [("sid1", sessionEx)] "sid1" (by decide)
  exact ⟨by decide, h.1, h.2.1 "other" (by decide), h.2.2.2.1, h.2.2.2.2.2⟩

/-! ## C1: the single-active-session invariant -/

/-- The sessions `start_test` evicts: owned by the user and not paused. -/
def activeOf (u : String) (p : String × Session) : Bool :=
  p.2.username == u && !p.2.is_paused

/-- The user's paused sessions, which `start_test` must preserve. -/
def pausedOf (u : String) (p : String × Session) : Bool :=
  p.2.username == u && p.2.is_paused

theorem hasKeyD_filter_false {α : Type} {l : List (String × α)} {k : String}
    (f : String × α → Bool) (h : hasKeyD l k = false) :
    hasKeyD (l.filter f) k = false := by
  induction l with
  | nil => simp [hasKeyD]
  | cons p rest ih =>
    by_cases hp : p.1 = k
    · simp [hasKeyD, hp] at h
    · have h' : hasKeyD rest k = false := by simpa [hasKeyD, hp] using h
      by_cases hf : f p
      · simpa [List.filter_cons, hf, hasKeyD, hp] using ih h'
      · simpa [List.filter_cons, hf] using ih h'

/-- `start_test`'s store update on a valid request with a fresh session id:
drop the user's non-paused sessions and append the new one. -/
theorem start_test_store (store : Store) (u tn sid : String) (now : Int)
    (hu : u ≠ "") (htn : tn ≠ "")
    (hfresh : hasKeyD (store.filter (fun p => !activeOf u p)) sid = false) :
    (start_test store u tn sid now).1 =
      store.filter (fun p => !activeOf u p) ++ [(sid, initSession u tn now)] := by
  simp only [start_test, activeOf] at hfresh ⊢
  rw [if_neg (by exact fun hor => hor.elim hu htn)]
  simp only [insertD, hfresh, Bool.false_eq_true, if_false]

/-- C1: after `start(u, t1)` then `start(u, t2)` (valid requests, fresh ids),
exactly one non-paused session owned by `u` is in the live store — the new one,
whose test is `t2` — and the user's paused sessions are exactly those of the
original store, unchanged. -/
theorem c1_single_active_session (store : Store) (u t1 t2 sid1 sid2 : String)
    (now1 now2 : Int) (hu : u ≠ "") (ht1 : t1 ≠ "") (ht2 : t2 ≠ "")
    (hf1 : hasKeyD store sid1 = false) (hf2 : hasKeyD store sid2 = false) :
    ((start_test (start_test store u t1 sid1 now1).1 u t2 sid2 now2).1).filter
        (activeOf u) = [(sid2, initSession u t2 now2)] ∧
    (initSession u t2 now2).test_name = t2 ∧
    ((start_test (start_test store u t1 sid1 now1).1 u t2 sid2 now2).1).filter
        (pausedOf u) = store.filter (pausedOf u) := by
  have hActive1 : activeOf u (sid1, initSession u t1 now1) = true := by
    simp [activeOf, initSession]
  have hS1 := start_test_store store u t1 sid1 now1 hu ht1
    (hasKeyD_filter_false _ hf1)
  -- the second start sees S1; its kept part is the original kept part again
  have hkept1 : ((start_test store u t1 sid1 now1).1).filter
      (fun p => !activeOf u p) = store.filter (fun p => !activeOf u p) := by
    rw [hS1, List.filter_append, List.filter_filter]
    simp only [List.filter_cons, hActive1, Bool.not_true, Bool.false_eq_true,
      if_false, List.filter_nil, List.append_nil]
    exact List.filter_congr (fun a _ => Bool.and_self _)
  have hS2 := start_test_store (start_test store u t1 sid1 now1).1 u t2 sid2
    now2 hu ht2 (by rw [hkept1]; exact hasKeyD_filter_false _ hf2)
  rw [hS2, hkept1]
  refine ⟨?_, rfl, ?_⟩
  · rw [List.filter_append, List.filter_filter]
    have h1 : store.filter (fun a => activeOf u a && !activeOf u a) = [] := by
      rw [List.filter_eq_nil_iff]
      intro a _
      cases activeOf u a <;> simp
    have h2 : activeOf u (sid2, initSession u t2 now2) = true := by
      simp [activeOf, initSession]
    simp [h1, List.filter_cons, h2]
  · rw [List.filter_append, List.filter_filter]
    have h2 : pausedOf u (sid2, initSession u t2 now2) = false := by
      simp [pausedOf, initSession]
    have h1 : store.filter (fun a => pausedOf u a && !activeOf u a) =
        store.filter (pausedOf u) := by
      refine List.filter_congr (fun a _ => ?_)
      simp only [pausedOf, activeOf]
      cases hud : a.2.username == u <;> cases hp : a.2.is_paused <;> simp
    simp [h1, List.filter_cons, h2]

/-- Witness for C1: a store holding a paused session of `alice` and an active
session of `bob`; after `alice` starts `Mock-1` and then `Mock-2`, her only
active session is the `Mock-2` one and her paused session is untouched. -/
def alicePausedEx : Session :=
  { initSession "alice" "Mock-0" 0 with is_paused := true, paused_at := some 5 }

def bobActiveEx : Session := initSession "bob" "Mock-1" 0

def storeEx : Store := [("p0", alicePausedEx), ("b0", bobActiveEx)]

theorem c1_single_active_session_witness :
    ((start_test (start_test storeEx "alice" "Mock-1" "n1" 10).1
        "alice" "Mock-2" "n2" 20).1).filter (activeOf "alice") =
      [("n2", initSession "alice" "Mock-2" 20)] ∧
    (initSession "alice" "Mock-2" 20).test_name = "Mock-2" ∧
    ((start_test (start_test storeEx "alice" "Mock-1" "n1" 10).1
        "alice" "Mock-2" "n2" 20).1).filter (pausedOf "alice") =
      storeEx.filter (pausedOf "alice") :=
  c1_single_active_session storeEx "alice" "Mock-1" "Mock-2" "n1" "n2" 10 20
    (by decide) (by decide) (by decide) (by decide) (by decide)

/-! ## C7: answer submission with an unknown question id -/

theorem find?_eq_none_of_any_false {α : Type} {p : α → Bool} {l : List α}
    (h : l.any p = false) : l.find? p = none := by
  rw [List.find?_eq_none]
  intro x hx hpx
  have hany : l.any p = true := List.any_eq_true.mpr ⟨x, hx, hpx⟩
  rw [h] at hany
  exact Bool.false_ne_true hany

theorem scanGroups_nomatch {secName qid : String} {grps : List QuestionGroup}
    (h : grps.any (fun grp => grp.qa_list.any
        (fun qa => mkQid secName qa.question_num == qid)) = false)
    (acc : String × String) : scanGroups secName qid grps acc = acc := by
  induction grps generalizing acc with
  | nil => rfl
  | cons g gs ih =>
    rw [List.any_cons, Bool.or_eq_false_iff] at h
    simp only [scanGroups, List.foldl_cons]
    rw [find?_eq_none_of_any_false h.1]
    exact ih h.2 acc

theorem scanSections_nomatch {qid : String}
    {secs : List (String × List QuestionGroup)}
    (h : secs.any (fun sec => sec.2.any (fun grp => grp.qa_list.any
        (fun qa => mkQid sec.1 qa.question_num == qid))) = false)
    (acc : String × String) : scanSections qid secs acc = acc := by
  induction secs generalizing acc with
  | nil => rfl
  | cons sec rest ih =>
    rw [List.any_cons, Bool.or_eq_false_iff] at h
    simp only [scanSections, List.foldl_cons]
    rw [scanGroups_nomatch h.1]
    exact ih h.2 acc

/-- When the question id occurs nowhere in the named test, the catalogue scan
of `submit_answer` comes back empty-handed. -/
theorem submitScan_not_found {tests : List TestData} {tn qid : String}
    (h : qidInTests tests tn qid = false) : submitScan tests tn qid = ("", "") := by
  suffices hgen : ∀ acc, tests.foldl
      (fun a t => if t.name == tn then scanSections qid t.data a else a) acc =
        acc from hgen ("", "")
  induction tests with
  | nil => intro acc; rfl
  | cons t ts ih =>
    unfold qidInTests at h
    rw [List.any_cons, Bool.or_eq_false_iff] at h
    intro acc
    rw [List.foldl_cons]
    by_cases hn : (t.name == tn) = true
    · have hin : t.data.any (fun sec => sec.2.any (fun grp => grp.qa_list.any
          (fun qa => mkQid sec.1 qa.question_num == qid))) = false := by
        rcases Bool.and_eq_false_iff.mp h.1 with hEq | hIn
        · rw [hn] at hEq
          exact absurd hEq.symm Bool.false_ne_true
        · exact hIn
      rw [if_pos hn, scanSections_nomatch hin]
      exact ih h.2 acc
    · rw [if_neg hn]
      exact ih h.2 acc

/-- The concrete unknown-id submission used for C7. -/
def subEx : AnswerSubmission :=
  { session_id := "sid1", question_id := "QA_999", answer := "b", time_spent := 5 }

/-- C7 counterexample: the claim says an unknown question id is reported as
`QuestionNotFound` and leaves the session unmodified; the code instead answers
success and stores the answer under the unknown id (with empty correct answer
and section). -/
theorem c7_counterexample :
    qidInTests testsEx sessionEx.test_name "QA_999" = false ∧
    (submit_answer [("sid1", sessionEx)] testsEx subEx 10).2 =
      .ok "Answer submitted successfully" ∧
    lookupD (submit_answer [("sid1", sessionEx)] testsEx subEx 10).1 "sid1" =
      some { sessionEx with
               answers := [("QA_999",
                 { answer := "b", correct_answer := "", time_spent := 5,
                   timestamp := 10, sect := "" })] } :=
  ⟨rfl, rfl, rfl⟩

/-- C7 amended: submitting an answer whose question id does not occur in the
session's test is *accepted*: the handler reports success and stores the
answer record under the unknown id with empty `correct_answer` and `section`;
no `QuestionNotFound` error is reported and the session is modified. -/
theorem c7_unknown_question_stored (store : Store) (tests : List TestData)
    (sub : AnswerSubmission) (s : Session) (now : Int)
    (h : lookupD store sub.session_id = some s)
    (hq : qidInTests tests s.test_name sub.question_id = false) :
    (submit_answer store tests sub now).2 = .ok "Answer submitted successfully" ∧
    (submit_answer store tests sub now).1 =
      insertD store sub.session_id
        { s with answers := (insertD s.answers sub.question_id
            { answer := sub.answer, correct_answer := "",
              time_spent := sub.time_spent, timestamp := now, sect := "" }) } := by
  simp only [submit_answer, h, submitScan_not_found hq]
  exact ⟨trivial, trivial⟩

/-- Witness for the amended C7 at the concrete unknown-id submission. -/
theorem c7_unknown_question_stored_witness :
    (submit_answer [("sid1", sessionEx)] testsEx subEx 10).2 =
      .ok "Answer submitted successfully" ∧
    (submit_answer [("sid1", sessionEx)] testsEx subEx 10).1 =
      insertD [("sid1", sessionEx)] subEx.session_id
        { sessionEx with
            answers := (insertD sessionEx.answers subEx.question_id
              { answer := subEx.answer, correct_answer := "",
                time_spent := subEx.time_spent, timestamp := 10, sect := "" }) } :=
  c7_unknown_question_stored [("sid1", sessionEx)] testsEx subEx sessionEx 10
    rfl (by decide)

/-! ## C9: latest-per-test aggregation -/

/-- C9: when two archived sheets carry the same test name with creation
timestamps T1 < T2, the user statistics are computed from the T2 sheet alone —
whichever order the sheets appear in the workbook. -/
theorem c9_latest_per_test (sh1 sh2 : Sheet)
    (hname : sh1.test_name = sh2.test_name) (hts : sh1.sheet_ts < sh2.sheet_ts)
    (h1 : sh1.rows ≠ []) (h2 : sh2.rows ≠ []) :
    userStats [sh1, sh2] = userStats [sh2] ∧
    userStats [sh2, sh1] = userStats [sh2] := by
  have he1 : sh1.rows.isEmpty = false := by
    cases hr : sh1.rows
    · exact absurd hr h1
    · rfl
  have he2 : sh2.rows.isEmpty = false := by
    cases hr : sh2.rows
    · exact absurd hr h2
    · rfl
  have hbeq : (sh1.test_name == sh2.test_name) = true := by
    rw [hname]
    simp
  have hbeq' : (sh2.test_name == sh1.test_name) = true := by
    rw [hname]
    simp
  have hC : latestAttempts [sh2] = [sh2] := by
    simp [latestAttempts, h2]
  have hA : latestAttempts [sh1, sh2] = [sh2] := by
    simp only [latestAttempts, List.foldl_cons, List.foldl_nil, he1, he2,
      Bool.false_eq_true, if_false, List.nil_append, List.find?_nil,
      List.find?_cons, hbeq]
    rw [if_pos hts]
    simp [hname]
  have hB : latestAttempts [sh2, sh1] = [sh2] := by
    simp only [latestAttempts, List.foldl_cons, List.foldl_nil, he1, he2,
      Bool.false_eq_true, if_false, List.nil_append, List.find?_nil,
      List.find?_cons, hbeq']
    rw [if_neg (by omega)]
  have key : ∀ l₁ l₂ : List Sheet, latestAttempts l₁ = latestAttempts l₂ →
      userStats l₁ = userStats l₂ := by
    intro l₁ l₂ h
    unfold userStats
    rw [h]
  exact ⟨key _ _ (by rw [hA, hC]), key _ _ (by rw [hB, hC])⟩

/-- Two concrete archives of the same test, the later one with the better
score. -/
def sheet1Ex : Sheet :=
  { sheet_ts := 1, test_name := "Mock-1",
    rows := [{ user_answer := "b", correct_answer := "a", marks := -1,
               time_spent := 20 }] }

def sheet2Ex : Sheet :=
  { sheet_ts := 2, test_name := "Mock-1",
    rows := [{ user_answer := "a", correct_answer := "a", marks := 3,
               time_spent := 40 }] }

/-- Witness for C9 on the two concrete archives. -/
theorem c9_latest_per_test_witness :
    userStats [sheet1Ex, sheet2Ex] = userStats [sheet2Ex] ∧
    userStats [sheet2Ex, sheet1Ex] = userStats [sheet2Ex] :=
  c9_latest_per_test sheet1Ex sheet2Ex rfl (by decide) (by decide) (by decide)
